import Mathlib

/-!
Verification development for the CSV appointment importer
(`ghl_accounts/csv_parser.py` and `ghl_accounts/services.py`).

The Python pipeline is shallowly embedded: pure functions become Lean
functions, ORM queries become lookups in explicit catalog lists, the
HTTP collaborators (`ghl_client`) become oracle functions carried in an
environment record, and database writes / outbound calls are logged in
an explicit state record.  Datetimes are modelled as proleptic-Gregorian
calendar tuples with an optional UTC-offset, matching how
`datetime.strptime` and aware-datetime comparison behave for the format
directives this repository uses.
-/

/-- Python `str.strip()` (default whitespace), via the character list so that
it evaluates inside the kernel. -/
def pyStrip (s : String) : String :=
  String.mk (((s.data.dropWhile Char.isWhitespace).reverse.dropWhile Char.isWhitespace).reverse)

/-- Python `str.lower()` (ASCII, which is all the pipeline compares). -/
def pyLower (s : String) : String :=
  String.mk (s.data.map Char.toLower)

/-- `.replace(" ", "_")` — the single-character replacement used by header
normalization. -/
def underscoreSpaces (s : String) : String :=
  String.mk (s.data.map fun c => if c = ' ' then '_' else c)

/-- The prefix of a character list before the first occurrence of the
(non-empty) separator; the whole list when the separator is absent. -/
def upToSep (sep : List Char) : List Char → List Char
  | [] => []
  | c :: rest => if sep.isPrefixOf (c :: rest) then [] else c :: upToSep sep rest

/-- Python `s.split(sep)[0]` for a non-empty separator. -/
def pySplitHead (s sep : String) : String :=
  String.mk (upToSep sep.data s.data)

/-- Python `s[:n]` (slicing counts code points). -/
def pyTake (s : String) (n : Nat) : String :=
  String.mk (s.data.take n)

/-- Python-style substring test (`pat in s`) on character lists. -/
def listContains (pat : List Char) : List Char → Bool
  | [] => pat.isEmpty
  | c :: rest => pat.isPrefixOf (c :: rest) || listContains pat rest

/-- `pat in s` for strings, as Python's `in` operator (contiguous substring). -/
def strContains (s pat : String) : Bool :=
  listContains pat.toList s.toList

/-- Python truthiness of an optional string: `None` and `""` are falsy. -/
def pyTruthy : Option String → Bool
  | none => false
  | some s => s ≠ ""

/-- `(o or "").strip() or None` — trim an optional string, empty becomes `None`. -/
def strippedOrNone (o : Option String) : Option String :=
  let s := pyStrip (o.getD "")
  if s = "" then none else some s

/-- Python `repr` of a string as used in the f-string error messages (`{x!r}`),
for the service names and emails appearing in them. -/
def pyRepr (s : String) : String :=
  "'" ++ s ++ "'"

/-!
## Datetimes

`datetime.strptime` never yields an aware datetime for the format strings in
`csv_parser.py` (none contain `%z`), so parser output always carries
`tzOffsetMinutes = none`; `run_import` later replaces a missing tzinfo with
UTC (`offset 0`).  Aware comparison `a < b` compares absolute instants.
-/

structure PyDateTime where
  year : Nat
  month : Nat
  day : Nat
  hour : Nat
  minute : Nat
  second : Nat
  tzOffsetMinutes : Option Int
deriving Repr, DecidableEq

/-- Days from civil epoch 1970-01-01 (proleptic Gregorian, Hinnant's algorithm,
restricted to years ≥ 1 as Python's `datetime` is). -/
def daysFromCivil (y m d : Nat) : Int :=
  let yAdj := if m ≤ 2 then y - 1 else y
  let era := yAdj / 400
  let yoe := yAdj % 400
  let mp := if 2 < m then m - 3 else m + 9
  let doy := (153 * mp + 2) / 5 + (d - 1)
  let doe := yoe * 365 + yoe / 4 - yoe / 100 + doy
  (↑(era * 146097 + doe) : Int) - 719468

/-- Absolute instant in seconds; for aware datetimes Python subtracts the
UTC offset before comparing. -/
def instantSec (dt : PyDateTime) : Int :=
  daysFromCivil dt.year dt.month dt.day * 86400
    + (↑(dt.hour * 3600 + dt.minute * 60 + dt.second) : Int)
    - dt.tzOffsetMinutes.getD 0 * 60

/-- Aware-datetime `<`, the comparison `start_dt < now` in `run_import`. -/
def dtLt (a b : PyDateTime) : Bool :=
  instantSec a < instantSec b

/-- `dt.replace(tzinfo=timezone.utc)` applied only when naive, as in
`run_import` (`if start_dt.tzinfo is None: ...`). -/
def utcIfNaive (dt : PyDateTime) : PyDateTime :=
  if dt.tzOffsetMinutes = none then { dt with tzOffsetMinutes := some 0 } else dt

/-!
## `datetime.strptime`

CPython's `_strptime` compiles a format string into a regex; each directive
is an ordered alternation (e.g. `%d` is `3[01]|[12]\d|0[1-9]|[1-9]`), the
regex is matched at the start of the input by backtracking, leftover input
raises (caught by `parse_datetime`, which tries the next format), and the
resulting fields build a `datetime`, whose constructor validates ranges.
We realize the regex backtracking as depth-first search over the ordered
candidate lists below.
-/

structure StrpFields where
  fY : Option Nat := none
  fm : Option Nat := none
  fd : Option Nat := none
  fH : Option Nat := none
  fI : Option Nat := none
  fM : Option Nat := none
  fS : Option Nat := none
  fp : Option Bool := none
deriving Repr, DecidableEq

def digitVal (c : Char) : Option Nat :=
  if c.isDigit then some (c.toNat - 48) else none

/-- Two-digit numeric alternative with an inclusive value range. -/
def twoDigitIn (lo hi : Nat) : List Char → List (Nat × List Char)
  | c1 :: c2 :: rest =>
    match digitVal c1, digitVal c2 with
    | some a, some b =>
      let v := 10 * a + b
      if lo ≤ v ∧ v ≤ hi then [(v, rest)] else []
    | _, _ => []
  | _ => []

/-- One-digit numeric alternative with an inclusive value range. -/
def oneDigitIn (lo hi : Nat) : List Char → List (Nat × List Char)
  | c :: rest =>
    match digitVal c with
    | some v => if lo ≤ v ∧ v ≤ hi then [(v, rest)] else []
    | none => []
  | [] => []

/-- `%d` : `3[01]|[12]\d|0[1-9]|[1-9]`. -/
def dayCands (cs : List Char) : List (Nat × List Char) :=
  twoDigitIn 30 31 cs ++ twoDigitIn 10 29 cs ++ twoDigitIn 1 9 cs ++ oneDigitIn 1 9 cs

/-- `%m` : `1[0-2]|0[1-9]|[1-9]`. -/
def monthCands (cs : List Char) : List (Nat × List Char) :=
  twoDigitIn 10 12 cs ++ twoDigitIn 1 9 cs ++ oneDigitIn 1 9 cs

/-- `%H` : `2[0-3]|[0-1]\d|\d`. -/
def hourCands (cs : List Char) : List (Nat × List Char) :=
  twoDigitIn 20 23 cs ++ twoDigitIn 0 19 cs ++ oneDigitIn 0 9 cs

/-- `%I` : `1[0-2]|0[1-9]|[1-9]`. -/
def hour12Cands (cs : List Char) : List (Nat × List Char) :=
  twoDigitIn 10 12 cs ++ twoDigitIn 1 9 cs ++ oneDigitIn 1 9 cs

/-- `%M` : `[0-5]\d|\d`. -/
def minuteCands (cs : List Char) : List (Nat × List Char) :=
  twoDigitIn 0 59 cs ++ oneDigitIn 0 9 cs

/-- `%S` : `6[0-1]|[0-5]\d|\d`. -/
def secondCands (cs : List Char) : List (Nat × List Char) :=
  twoDigitIn 60 61 cs ++ twoDigitIn 0 59 cs ++ oneDigitIn 0 9 cs

/-- `%Y` : exactly four digits (`\d\d\d\d`). -/
def yearCands : List Char → List (Nat × List Char)
  | c1 :: c2 :: c3 :: c4 :: rest =>
    match digitVal c1, digitVal c2, digitVal c3, digitVal c4 with
    | some a, some b, some c, some d => [(1000 * a + 100 * b + 10 * c + d, rest)]
    | _, _, _, _ => []
  | _ => []

/-- `%p` : `AM|PM`, case-insensitive; `true` means PM. -/
def ampmCands : List Char → List (Bool × List Char)
  | c1 :: c2 :: rest =>
    if c1.toLower = 'a' ∧ c2.toLower = 'm' then [(false, rest)]
    else if c1.toLower = 'p' ∧ c2.toLower = 'm' then [(true, rest)]
    else []
  | _ => []

/-- Try ordered candidates, returning the first continuation success
(regex alternation with backtracking). -/
def tryCands {β α : Type} : List (β × List Char) → (β → List Char → Option α) → Option α
  | [], _ => none
  | (v, rest) :: more, k =>
    match k v rest with
    | some r => some r
    | none => tryCands more k

inductive FmtTok where
  | lit (c : Char)
  | tY | tm | td | tH | tI | tM | tS | tp
deriving Repr, DecidableEq

/-- Compile a `strptime` format string to tokens; `none` for directives the
repository never uses. -/
def fmtToks : List Char → Option (List FmtTok)
  | [] => some []
  | '%' :: c :: rest =>
    (match c with
     | 'Y' => some FmtTok.tY
     | 'm' => some FmtTok.tm
     | 'd' => some FmtTok.td
     | 'H' => some FmtTok.tH
     | 'I' => some FmtTok.tI
     | 'M' => some FmtTok.tM
     | 'S' => some FmtTok.tS
     | 'p' => some FmtTok.tp
     | _ => none).bind fun t => (fmtToks rest).map fun ts => t :: ts
  | ['%'] => none
  | c :: rest => (fmtToks rest).map fun ts => FmtTok.lit c :: ts

/-- Depth-first matcher: first match in regex-alternation order, together with
the unconsumed input. -/
def matchToks : List FmtTok → List Char → StrpFields → Option (StrpFields × List Char)
  | [], cs, f => some (f, cs)
  | FmtTok.lit c :: ts, cs, f =>
    match cs with
    | c' :: rest => if c' = c then matchToks ts rest f else none
    | [] => none
  | FmtTok.tY :: ts, cs, f =>
    tryCands (yearCands cs) fun v rest => matchToks ts rest { f with fY := some v }
  | FmtTok.tm :: ts, cs, f =>
    tryCands (monthCands cs) fun v rest => matchToks ts rest { f with fm := some v }
  | FmtTok.td :: ts, cs, f =>
    tryCands (dayCands cs) fun v rest => matchToks ts rest { f with fd := some v }
  | FmtTok.tH :: ts, cs, f =>
    tryCands (hourCands cs) fun v rest => matchToks ts rest { f with fH := some v }
  | FmtTok.tI :: ts, cs, f =>
    tryCands (hour12Cands cs) fun v rest => matchToks ts rest { f with fI := some v }
  | FmtTok.tM :: ts, cs, f =>
    tryCands (minuteCands cs) fun v rest => matchToks ts rest { f with fM := some v }
  | FmtTok.tS :: ts, cs, f =>
    tryCands (secondCands cs) fun v rest => matchToks ts rest { f with fS := some v }
  | FmtTok.tp :: ts, cs, f =>
    tryCands (ampmCands cs) fun v rest => matchToks ts rest { f with fp := some v }

def daysInMonth (y m : Nat) : Nat :=
  if m = 2 then
    if (y % 4 = 0 ∧ y % 100 ≠ 0) ∨ y % 400 = 0 then 29 else 28
  else if m = 4 ∨ m = 6 ∨ m = 9 ∨ m = 11 then 30 else 31

/-- Build the `datetime` from matched fields, with `datetime` constructor
validation; `%I`/`%p` handling follows `_strptime` (`12 AM → 0`,
`h PM → h+12` unless `h = 12`). -/
def mkDateTime (f : StrpFields) : Option PyDateTime :=
  let year := f.fY.getD 1900
  let month := f.fm.getD 1
  let day := f.fd.getD 1
  let hour :=
    match f.fH with
    | some h => h
    | none =>
      match f.fI with
      | none => 0
      | some i =>
        match f.fp with
        | some true => if i = 12 then i else i + 12
        | _ => if i = 12 then 0 else i
  let minute := f.fM.getD 0
  let second := f.fS.getD 0
  if 1 ≤ year ∧ year ≤ 9999 ∧ 1 ≤ month ∧ month ≤ 12 ∧ 1 ≤ day ∧
      day ≤ daysInMonth year month ∧ hour ≤ 23 ∧ minute ≤ 59 ∧ second ≤ 59 then
    some { year, month, day, hour, minute, second, tzOffsetMinutes := none }
  else none

/-- `datetime.strptime(value, fmt)`, returning `none` where Python raises
`ValueError` (no regex match, unconverted data remains, or constructor
rejection). -/
def strptime (value fmt : String) : Option PyDateTime :=
  match fmtToks fmt.toList with
  | none => none
  | some ts =>
    match matchToks ts value.toList {} with
    | some (f, []) => mkDateTime f
    | _ => none

/-- First format that parses wins (the loop in `parse_datetime`). -/
def firstParse (v : String) : List String → Option PyDateTime
  | [] => none
  | f :: fs =>
    match strptime v f with
    | some dt => some dt
    | none => firstParse v fs

/-- `DATETIME_FORMATS` from `csv_parser.py`. -/
def DATETIME_FORMATS : List String :=
  ["%m/%d/%Y %H:%M:%S",
   "%m/%d/%Y %I:%M:%S %p",
   "%m-%d-%Y %H:%M:%S",
   "%Y-%m-%d %H:%M:%S",
   "%Y-%m-%dT%H:%M:%S",
   "%d/%m/%Y %H:%M:%S",
   "%d/%m/%Y %I:%M:%S %p",
   "%m/%d/%Y %H:%M",
   "%Y-%m-%d %H:%M"]

/-- `DATE_FORMAT_PRESETS` from `csv_parser.py` (insertion-ordered dict). -/
def DATE_FORMAT_PRESETS : List (String × List String) :=
  [("DD/MM/YYYY",
    ["%d/%m/%Y %H:%M:%S", "%d/%m/%Y %I:%M:%S %p", "%d/%m/%Y %H:%M", "%d/%m/%Y"]),
   ("YYYY-MM-DD",
    ["%Y-%m-%d %H:%M:%S", "%Y-%m-%dT%H:%M:%S", "%Y-%m-%d %H:%M", "%Y-%m-%d"]),
   ("MM/DD/YYYY",
    ["%m/%d/%Y %H:%M:%S", "%m/%d/%Y %I:%M:%S %p", "%m/%d/%Y %H:%M", "%m/%d/%Y"]),
   ("ISO",
    ["%Y-%m-%dT%H:%M:%S", "%Y-%m-%d %H:%M:%S", "%Y-%m-%d %H:%M"])]

/-- `parse_datetime(value, formats)`: `None` for empty values, otherwise try
`formats or DATETIME_FORMATS` in order. -/
def parse_datetime (value : String) (formats : Option (List String)) : Option PyDateTime :=
  if value = "" then none
  else
    let v := pyStrip value
    if v = "" then none
    else
      let fmts :=
        match formats with
        | some (f :: fs) => f :: fs
        | _ => DATETIME_FORMATS
      firstParse v fmts

/-!
## CSV rows

`csv_parser.parse_csv_rows` decodes the bytes and feeds them to `csv.reader`;
the byte decoding and CSV lexing are Python-stdlib collaborators, so the
embedding takes their output — the list of raw string rows (header first) —
as the input.  Records are Python dicts: insertion-ordered association
lists whose update keeps the original key position.
-/

/-- Python dict lookup. -/
def dget (d : List (String × String)) (k : String) : Option String :=
  (d.find? fun kv => kv.1 = k).map fun kv => kv.2

/-- Python dict assignment: overwrite in place, else append. -/
def dset (d : List (String × String)) (k v : String) : List (String × String) :=
  match d with
  | [] => [(k, v)]
  | (k', v') :: rest => if k' = k then (k, v) :: rest else (k', v') :: dset rest k v

/-- `record.get(k, default)`. -/
def dgetD (d : List (String × String)) (k default : String) : String :=
  (dget d k).getD default

/-- Dict of header name → column index with the same overwrite semantics. -/
def nset (d : List (String × Nat)) (k : String) (v : Nat) : List (String × Nat) :=
  match d with
  | [] => [(k, v)]
  | (k', v') :: rest => if k' = k then (k, v) :: rest else (k', v') :: nset rest k v

/-- `normalize_headers`: trim, lowercase, spaces to underscores. -/
def normalize_headers (row : List String) : List String :=
  row.map fun h => underscoreSpaces (pyLower (pyStrip h))

/-- `{name: i for i, name in enumerate(normalized)}`. -/
def nameToIndex (normalized : List String) : List (String × Nat) :=
  (normalized.enum.map fun p => (p.2, p.1)).foldl (fun d p => nset d p.1 p.2) []

/-- The record built from one padded row:
`record[norm_name] = (row[idx] or "").strip()` for each header entry. -/
def buildRecord (ntoi : List (String × Nat)) (row : List String) : List (String × String) :=
  ntoi.foldl (fun rec p =>
    if p.2 < row.length then dset rec p.1 (pyStrip (row.getD p.2 ""))
    else dset rec p.1 "") []

/-- `_apply_column_mapping(record, column_mapping)`. -/
def apply_column_mapping (record : List (String × String))
    (column_mapping : Option (List (String × String))) : List (String × String) :=
  match column_mapping with
  | none => record
  | some [] => record
  | some m =>
    m.foldl (fun out kv =>
      let csvKeyNorm := underscoreSpaces (pyLower (pyStrip kv.2))
      if csvKeyNorm = "" then out
      else dset out kv.1 ((dget record csvKeyNorm).getD ((dget record kv.1).getD ""))) record

/-- One yielded record: the field dict plus the derived `_start_dt`,
`_end_dt`, `_row_num` entries. -/
structure ParsedRow where
  fields : List (String × String)
  start_dt : PyDateTime
  end_dt : PyDateTime
  row_num : Nat
deriving Repr, DecidableEq

/-- The `ValueError` raised by strict mode, with the data its message
interpolates (`Row {row_num}: invalid start_time or end_time
(start={start_raw!r}, end={end_raw!r})`). -/
structure ParseFailure where
  row_num : Nat
  start_raw : String
  end_raw : String
deriving Repr, DecidableEq

/-- The message text of the strict-mode `ValueError`. -/
def parseFailureMessage (e : ParseFailure) : String :=
  "Row " ++ toString e.row_num ++ ": invalid start_time or end_time (start=" ++
    pyRepr e.start_raw ++ ", end=" ++ pyRepr e.end_raw ++ ")"

/-- The `formats` computation in `parse_csv_rows` (lines 127–129):
presets only apply for a truthy `date_format` that names one. -/
def formatsFor (date_format : Option String) : List String :=
  match date_format with
  | none => DATETIME_FORMATS
  | some df =>
    if df = "" then DATETIME_FORMATS
    else
      match (DATE_FORMAT_PRESETS.find? fun p => p.1 = df).map Prod.snd with
      | some [] => DATETIME_FORMATS
      | some (f :: fs) => f :: fs
      | none => DATETIME_FORMATS

/-- Row padding, positional record building and column remapping — the
record-construction steps of one loop iteration of `parse_csv_rows`. -/
def rawRecordOf (ntoi : List (String × Nat)) (hlen : Nat)
    (column_mapping : Option (List (String × String))) (row : List String) :
    List (String × String) :=
  let padded := if row.length < hlen then row ++ List.replicate (hlen - row.length) "" else row
  let record := buildRecord ntoi padded
  match column_mapping with
  | some (kv :: kvs) => apply_column_mapping record (some (kv :: kvs))
  | _ => record

/-- The `for row_num, row in enumerate(reader, start=2)` loop body of
`parse_csv_rows`. -/
def parseRowsLoop (ntoi : List (String × Nat)) (hlen : Nat) (formats : List String)
    (skip_invalid : Bool) (column_mapping : Option (List (String × String))) :
    Nat → List (List String) → Except ParseFailure (List ParsedRow)
  | _, [] => Except.ok []
  | row_num, row :: rest =>
    let record := rawRecordOf ntoi hlen column_mapping row
    let start_raw := dgetD record "start_time" ""
    let end_raw := dgetD record "end_time" ""
    match parse_datetime start_raw (some formats), parse_datetime end_raw (some formats) with
    | some sdt, some edt =>
      (parseRowsLoop ntoi hlen formats skip_invalid column_mapping (row_num + 1) rest).map
        fun rs => { fields := record, start_dt := sdt, end_dt := edt, row_num := row_num } :: rs
    | _, _ =>
      if skip_invalid then
        parseRowsLoop ntoi hlen formats skip_invalid column_mapping (row_num + 1) rest
      else
        Except.error { row_num := row_num, start_raw := start_raw, end_raw := end_raw }

/-- `parse_csv_rows(file_content, skip_invalid, date_format, column_mapping)`
over the `csv.reader` row list. -/
def parse_csv_rows (fileRows : List (List String)) (skip_invalid : Bool)
    (date_format : Option String) (column_mapping : Option (List (String × String))) :
    Except ParseFailure (List ParsedRow) :=
  match fileRows with
  | [] => Except.ok []
  | header_row :: dataRows =>
    if header_row.isEmpty then Except.ok []
    else
      let normalized := normalize_headers header_row
      let ntoi := nameToIndex normalized
      let formats := formatsFor date_format
      parseRowsLoop ntoi header_row.length formats skip_invalid column_mapping 2 dataRows

/-!
## Catalogs and resolution (`services.py`)

Django querysets become explicit lists; `.filter(...).first()` is `find?`
in database order, `__iexact` is equality after lowercasing.
-/

structure ServiceCalendarMapping where
  location_id : String
  service_name : String
  service_id : String
  staff_id : String
  calendar_id : String
deriving Repr, DecidableEq

structure GHLService where
  location_id : String
  service_id : String
  name : String
deriving Repr, DecidableEq

structure Catalogs where
  mappings : List ServiceCalendarMapping
  services : List GHLService
deriving Repr, DecidableEq

/-- `_resolve_service_and_staff(location_id, service_name, csv_service_id,
csv_staff_id)` from `services.py`. -/
def resolve_service_and_staff (db : Catalogs) (location_id service_name : String)
    (csv_service_id csv_staff_id : Option String) :
    Option String × Option String × Option String :=
  let service_id := strippedOrNone csv_service_id
  let staff_id := strippedOrNone csv_staff_id
  if pyTruthy service_id ∧ pyTruthy staff_id then (service_id, staff_id, none)
  else
    let mapping := db.mappings.find? fun m =>
      m.location_id == location_id && pyLower m.service_name == pyLower service_name
    let service_id :=
      if pyTruthy service_id then service_id
      else
        match db.services.find? fun c =>
            c.location_id == location_id && pyLower c.name == pyLower service_name with
        | some catalog => some catalog.service_id
        | none =>
          match mapping with
          | some mp => some mp.service_id
          | none => service_id
    let staffCal :=
      if pyTruthy staff_id then (staff_id, (none : Option String))
      else
        match mapping with
        | some mp => (some mp.staff_id, some mp.calendar_id)
        | none => (staff_id, (none : Option String))
    if pyTruthy service_id ∧ pyTruthy staffCal.1 then (service_id, staffCal.1, staffCal.2)
    else (none, none, none)

/-!
## Error classifier (`_friendly_booking_error`)
-/

def msgSlotNoLongerAvailable : String :=
  "This time slot is no longer available. Choose a different time, or enable “Override slot availability” to book anyway."

def msgSlotTaken : String :=
  "This slot is already taken. Choose a different time, or enable “Override slot availability” to book anyway."

def msgSlotNotAvailable : String :=
  "This time slot is not available. Try another time or enable “Override slot availability”."

def msgBookingDefault : String :=
  "Booking could not be created."

/-- The pass-through tail of `_friendly_booking_error`: first sentence by the
first separator present among `". "`, `" — "`, `": "`, else first 120
characters. -/
def fallbackBookingMessage (raw : String) : String :=
  if strContains raw ". " then pyStrip (pySplitHead raw ". ") ++ "."
  else if strContains raw " — " then pyStrip (pySplitHead raw " — ") ++ "."
  else if strContains raw ": " then pyStrip (pySplitHead raw ": ") ++ "."
  else if 120 < raw.length then pyTake raw 120 ++ "..." else raw

/-- `_friendly_booking_error(raw_error)` from `services.py`. -/
def friendly_booking_error (raw_error : Option String) : String :=
  match raw_error with
  | none => msgBookingDefault
  | some raw =>
    if raw = "" then msgBookingDefault
    else
      let errLower := pyLower raw
      if strContains errLower "slot is no longer available" ||
          strContains errLower "no longer available" then
        msgSlotNoLongerAvailable
      else if strContains errLower "conflict" || strContains errLower "already booked" then
        msgSlotTaken
      else if (strContains errLower "internal server error" || strContains errLower "500") &&
          (strContains errLower "slot" || strContains errLower "available") then
        msgSlotNotAvailable
      else
        fallbackBookingMessage raw

/-!
## Preview (`run_preview`)
-/

/-- One per-row entry of `row_results`; keys the Python dict omits are the
`none`/default fields. -/
structure RowResult where
  row : Nat
  success : Bool
  ghl_booking_id : Option String := none
  is_past : Option Bool := none
  error : Option String := none
deriving Repr, DecidableEq

structure PreviewResult where
  success : Bool
  error : Option String := none
  total_rows : Nat
  would_succeed : Nat
  would_fail : Nat
  row_results : List RowResult
deriving Repr, DecidableEq

/-- The unresolved-service row error message used by both preview and import. -/
def unresolvedMessage (service_name : String) : String :=
  "Could not resolve service_id/staff_id for service_name=" ++ pyRepr service_name ++
    ". Sync services catalog (POST /api/sync-services-catalog/) or add a ServiceCalendarMapping."

/-- Loop body of `run_preview`: the row-result for one record. -/
def previewRow (db : Catalogs) (location_id : String) (record : ParsedRow) : RowResult :=
  let row_num := record.row_num
  let email := pyStrip (dgetD record.fields "email" "")
  let service_name := pyStrip (dgetD record.fields "service_name" "")
  let csv_service_id := pyStrip (dgetD record.fields "service_id" "")
  let csv_staff_id := pyStrip (dgetD record.fields "staff_id" "")
  if email = "" then { row := row_num, success := false, error := some "Missing email" }
  else
    let r := resolve_service_and_staff db location_id service_name
      (some csv_service_id) (some csv_staff_id)
    if ¬ (pyTruthy r.1 ∧ pyTruthy r.2.1) then
      { row := row_num, success := false, error := some (unresolvedMessage service_name) }
    else
      { row := row_num, success := true, error := none }

/-- `run_preview(file_content, location_id, date_format, column_mapping)`:
dry-run over the parsed rows, no collaborator access, no persistence. -/
def run_preview (db : Catalogs) (fileRows : List (List String)) (location_id : String)
    (date_format : Option String) (column_mapping : Option (List (String × String))) :
    PreviewResult :=
  match parse_csv_rows fileRows true date_format column_mapping with
  | Except.error e =>
    { success := false, error := some (parseFailureMessage e),
      total_rows := 0, would_succeed := 0, would_fail := 0, row_results := [] }
  | Except.ok rows =>
    let results := rows.map (previewRow db location_id)
    { success := true, total_rows := rows.length,
      would_succeed := (results.filter fun r => r.success = true).length,
      would_fail := (results.filter fun r => r.success = false).length,
      row_results := results }

/-!
## Live import (`run_import`)

Collaborator calls (`ghl_client`) are oracle functions in the environment;
every call made and every `ImportedAppointment.objects.create` is logged in
the row state, so "no external call" and "nothing persisted" are statable.
-/

structure ContactSearchArgs where
  access_token : String
  location_id : String
  email : String
  version : Option String
deriving Repr, DecidableEq

structure ContactCreateArgs where
  access_token : String
  location_id : String
  name : String
  email : String
  phone : String
  version : Option String
deriving Repr, DecidableEq

structure BookingArgs where
  access_token : String
  location_id : String
  service_id : String
  staff_id : String
  contact_id : String
  start_time : PyDateTime
  end_time : PyDateTime
  timezone : String
  calendar_id : Option String
  version : Option String
  override_availability : Bool
deriving Repr, DecidableEq

/-- Each `ghl_client` function returns `(value, error_detail)`. -/
structure Collaborators where
  get_contact_id_by_email : ContactSearchArgs → Option String × Option String
  create_contact : ContactCreateArgs → Option String × Option String
  create_service_booking : BookingArgs → Option String × Option String

structure GHLAuthCredentials where
  location_id : String
  access_token : String
deriving Repr, DecidableEq

structure ImportEnv where
  credentials : List GHLAuthCredentials
  db : Catalogs
  collab : Collaborators
  now : PyDateTime

structure ImportedAppointment where
  name : String
  email : String
  phone : String
  service_name : String
  start_time : PyDateTime
  end_time : PyDateTime
  is_past : Bool
  ghl_booking_id : Option String
deriving Repr, DecidableEq

/-- Accumulators of the `run_import` loop plus the persistence/call log. -/
structure RowState where
  imported : Nat := 0
  past_count : Nat := 0
  future_count : Nat := 0
  created_bookings : Nat := 0
  errors : List String := []
  row_results : List RowResult := []
  created : List ImportedAppointment := []
  contactSearchCalls : List ContactSearchArgs := []
  contactCreateCalls : List ContactCreateArgs := []
  bookingCalls : List BookingArgs := []
deriving Repr, DecidableEq

structure ImportSummary where
  success : Bool
  error : Option String := none
  imported : Nat
  past_count : Nat
  future_count : Nat
  created_bookings : Nat
  errors : List String
  row_results : List RowResult
deriving Repr, DecidableEq

inductive ImportOutcome where
  | preview (p : PreviewResult)
  | run (s : ImportSummary)
deriving Repr, DecidableEq

/-- The early return of `run_import` when no credentials match. -/
def noCredentialsFailure : ImportSummary :=
  { success := false, error := some "No OAuth credentials found for this location_id.",
    imported := 0, past_count := 0, future_count := 0, created_bookings := 0,
    errors := [], row_results := [] }

/-- `tz_name = (record.get("timezone") or "UTC").strip() or "UTC"`. -/
def pyTzName (fields : List (String × String)) : String :=
  let tzRaw := dgetD fields "timezone" ""
  let tzStripped := pyStrip (if tzRaw = "" then "UTC" else tzRaw)
  if tzStripped = "" then "UTC" else tzStripped

/-- Steps 2–3 of the loop body (past/future branch, resolution, booking),
entered once a contact id is in hand. -/
def rowPastFuture (env : ImportEnv) (access_token location_id version : String)
    (override_availability : Bool) (now : PyDateTime) (record : ParsedRow)
    (start_dt end_dt : PyDateTime) (contact_id : String) (st : RowState) : RowState :=
  let name := dgetD record.fields "name" ""
  let email := pyStrip (dgetD record.fields "email" "")
  let phone := dgetD record.fields "phone" ""
  let service_name := pyStrip (dgetD record.fields "service_name" "")
  let tz_name := pyTzName record.fields
  let row_num := record.row_num
  if dtLt start_dt now then
    { st with
      created := st.created ++
        [{ name := name, email := email, phone := phone, service_name := service_name,
           start_time := start_dt, end_time := end_dt, is_past := true,
           ghl_booking_id := none }],
      imported := st.imported + 1,
      past_count := st.past_count + 1,
      row_results := st.row_results ++
        [{ row := row_num, success := true, ghl_booking_id := none, is_past := some true }] }
  else
    let csv_service_id := pyStrip (dgetD record.fields "service_id" "")
    let csv_staff_id := pyStrip (dgetD record.fields "staff_id" "")
    let r := resolve_service_and_staff env.db location_id service_name
      (some csv_service_id) (some csv_staff_id)
    if ¬ (pyTruthy r.1 ∧ pyTruthy r.2.1) then
      let err_msg := unresolvedMessage service_name
      { st with
        errors := st.errors ++ [err_msg],
        created := st.created ++
          [{ name := name, email := email, phone := phone, service_name := service_name,
             start_time := start_dt, end_time := end_dt, is_past := false,
             ghl_booking_id := none }],
        imported := st.imported + 1,
        future_count := st.future_count + 1,
        row_results := st.row_results ++
          [{ row := row_num, success := true, ghl_booking_id := none, error := some err_msg }] }
    else
      let args : BookingArgs :=
        { access_token := access_token, location_id := location_id,
          service_id := r.1.getD "", staff_id := r.2.1.getD "", contact_id := contact_id,
          start_time := start_dt, end_time := end_dt, timezone := tz_name,
          calendar_id := r.2.2, version := if version = "" then none else some version,
          override_availability := override_availability }
      let b := env.collab.create_service_booking args
      let st1 : RowState := { st with bookingCalls := st.bookingCalls ++ [args] }
      let st2 : RowState :=
        { st1 with
          created := st1.created ++
            [{ name := name, email := email, phone := phone, service_name := service_name,
               start_time := start_dt, end_time := end_dt, is_past := false,
               ghl_booking_id := b.1 }],
          imported := st1.imported + 1,
          future_count := st1.future_count + 1 }
      if pyTruthy b.1 then
        { st2 with
          created_bookings := st2.created_bookings + 1,
          row_results := st2.row_results ++
            [{ row := row_num, success := true, ghl_booking_id := b.1, is_past := some false }] }
      else
        let friendly := friendly_booking_error b.2
        { st2 with
          errors := st2.errors ++ [friendly],
          row_results := st2.row_results ++
            [{ row := row_num, success := false, error := some friendly }] }

/-- The full `run_import` loop body for one yielded record. -/
def processRow (env : ImportEnv) (access_token location_id version : String)
    (override_availability : Bool) (now : PyDateTime) (st : RowState)
    (record : ParsedRow) : RowState :=
  let name := dgetD record.fields "name" ""
  let email := pyStrip (dgetD record.fields "email" "")
  let phone := dgetD record.fields "phone" ""
  let row_num := record.row_num
  if email = "" then
    { st with
      errors := st.errors ++
        ["Row " ++ toString row_num ++ ": missing email for name=" ++ pyRepr name],
      row_results := st.row_results ++
        [{ row := row_num, success := false, error := some "Missing email" }] }
  else
    let start_dt := utcIfNaive record.start_dt
    let end_dt := utcIfNaive record.end_dt
    let vOpt : Option String := if version = "" then none else some version
    let sArgs : ContactSearchArgs :=
      { access_token := access_token, location_id := location_id, email := email,
        version := vOpt }
    let s := env.collab.get_contact_id_by_email sArgs
    let st1 : RowState := { st with contactSearchCalls := st.contactSearchCalls ++ [sArgs] }
    if pyTruthy s.1 then
      rowPastFuture env access_token location_id version override_availability now record
        start_dt end_dt (s.1.getD "") st1
    else
      let cArgs : ContactCreateArgs :=
        { access_token := access_token, location_id := location_id, name := name,
          email := email, phone := phone, version := vOpt }
      let c := env.collab.create_contact cArgs
      let st2 : RowState := { st1 with contactCreateCalls := st1.contactCreateCalls ++ [cArgs] }
      if pyTruthy c.1 then
        rowPastFuture env access_token location_id version override_availability now record
          start_dt end_dt (c.1.getD "") st2
      else
        let detail := if pyTruthy s.2 then s.2 else c.2
        let msg0 := "Could not get or create contact for email=" ++ pyRepr email
        let msg := if pyTruthy detail then msg0 ++ " — " ++ detail.getD "" else msg0
        { st2 with
          errors := st2.errors ++ [msg],
          row_results := st2.row_results ++
            [{ row := row_num, success := false, error := some msg }] }

/-- `run_import(file_content, location_id, version, dry_run,
override_availability, date_format, column_mapping)`; the second component
is the persistence/collaborator-call log of the run. -/
def run_import (env : ImportEnv) (fileRows : List (List String)) (location_id : String)
    (version : String) (dry_run : Bool) (override_availability : Bool)
    (date_format : Option String) (column_mapping : Option (List (String × String))) :
    ImportOutcome × RowState :=
  match env.credentials.find? fun c => c.location_id == location_id with
  | none => (ImportOutcome.run noCredentialsFailure, {})
  | some creds =>
    let access_token := creds.access_token
    let now := utcIfNaive env.now
    if dry_run then
      (ImportOutcome.preview (run_preview env.db fileRows location_id date_format column_mapping),
       {})
    else
      let rows :=
        match parse_csv_rows fileRows true date_format column_mapping with
        | Except.ok rs => rs
        | Except.error _ => []
      let final :=
        rows.foldl (processRow env access_token location_id version override_availability now) {}
      (ImportOutcome.run
        { success := true, imported := final.imported, past_count := final.past_count,
          future_count := final.future_count, created_bookings := final.created_bookings,
          errors := final.errors, row_results := final.row_results },
       final)

/-!
## Derived observations and accumulator lemmas

`processRow` only ever appends to the accumulator lists and adds to the
counters; the per-row contributions below are read off `processRow` run
from the empty state, and the lemmas tie them to a run from any state.
-/

/-- The trimmed email of a record, the row-validation key of both
`run_preview` and `run_import`. -/
def rowEmail (r : ParsedRow) : String :=
  pyStrip (dgetD r.fields "email" "")

/-- The single row-result `processRow` appends for a record. -/
def liveRowResult (env : ImportEnv) (access_token location_id version : String)
    (override_availability : Bool) (now : PyDateTime) (r : ParsedRow) : RowResult :=
  ((processRow env access_token location_id version override_availability now {} r).row_results).headD
    { row := 0, success := false }

/-- The (zero or one) `ImportedAppointment` rows `processRow` persists for a
record. -/
def createdDelta (env : ImportEnv) (access_token location_id version : String)
    (override_availability : Bool) (now : PyDateTime) (r : ParsedRow) :
    List ImportedAppointment :=
  (processRow env access_token location_id version override_availability now {} r).created

/-- The (zero or one) booking calls `processRow` issues for a record. -/
def bookingDelta (env : ImportEnv) (access_token location_id version : String)
    (override_availability : Bool) (now : PyDateTime) (r : ParsedRow) :
    List BookingArgs :=
  (processRow env access_token location_id version override_availability now {} r).bookingCalls

set_option maxHeartbeats 1000000 in
theorem processRow_row_results (env : ImportEnv) (a l v : String) (o : Bool)
    (n : PyDateTime) (st : RowState) (r : ParsedRow) :
    (processRow env a l v o n st r).row_results
      = st.row_results ++ [liveRowResult env a l v o n r] := by
  simp only [liveRowResult, processRow, rowPastFuture]
  split_ifs <;> rfl

set_option maxHeartbeats 1000000 in
theorem processRow_created (env : ImportEnv) (a l v : String) (o : Bool)
    (n : PyDateTime) (st : RowState) (r : ParsedRow) :
    (processRow env a l v o n st r).created
      = st.created ++ createdDelta env a l v o n r := by
  simp only [createdDelta, processRow, rowPastFuture]
  split_ifs <;> simp only [List.nil_append, List.append_nil]

set_option maxHeartbeats 1000000 in
theorem processRow_bookingCalls (env : ImportEnv) (a l v : String) (o : Bool)
    (n : PyDateTime) (st : RowState) (r : ParsedRow) :
    (processRow env a l v o n st r).bookingCalls
      = st.bookingCalls ++ bookingDelta env a l v o n r := by
  simp only [bookingDelta, processRow, rowPastFuture]
  split_ifs <;> simp only [List.nil_append, List.append_nil]

theorem foldl_row_results (env : ImportEnv) (a l v : String) (o : Bool)
    (n : PyDateTime) (rows : List ParsedRow) (st : RowState) :
    ((rows.foldl (processRow env a l v o n) st).row_results)
      = st.row_results ++ rows.map (liveRowResult env a l v o n) := by
  induction rows generalizing st with
  | nil => simp
  | cons r rs ih => simp [List.foldl_cons, ih, processRow_row_results]

theorem foldl_created (env : ImportEnv) (a l v : String) (o : Bool)
    (n : PyDateTime) (rows : List ParsedRow) (st : RowState) :
    ((rows.foldl (processRow env a l v o n) st).created)
      = st.created ++ (rows.map (createdDelta env a l v o n)).flatten := by
  induction rows generalizing st with
  | nil => simp
  | cons r rs ih => simp [List.foldl_cons, ih, processRow_created]

theorem foldl_bookingCalls (env : ImportEnv) (a l v : String) (o : Bool)
    (n : PyDateTime) (rows : List ParsedRow) (st : RowState) :
    ((rows.foldl (processRow env a l v o n) st).bookingCalls)
      = st.bookingCalls ++ (rows.map (bookingDelta env a l v o n)).flatten := by
  induction rows generalizing st with
  | nil => simp
  | cons r rs ih => simp [List.foldl_cons, ih, processRow_bookingCalls]

/-- Whether the contact step of `run_import` obtains a contact id for a
record: the search result, else the create result (short-circuited exactly
like the code). -/
def contactObtained (env : ImportEnv) (access_token location_id version : String)
    (r : ParsedRow) : Bool :=
  let vOpt : Option String := if version = "" then none else some version
  if pyTruthy (env.collab.get_contact_id_by_email
      { access_token := access_token, location_id := location_id, email := rowEmail r,
        version := vOpt }).1 then true
  else
    pyTruthy (env.collab.create_contact
      { access_token := access_token, location_id := location_id,
        name := dgetD r.fields "name" "", email := rowEmail r,
        phone := dgetD r.fields "phone" "", version := vOpt }).1

set_option maxHeartbeats 1000000 in
theorem liveRowResult_row (env : ImportEnv) (a l v : String) (o : Bool)
    (n : PyDateTime) (r : ParsedRow) :
    (liveRowResult env a l v o n r).row = r.row_num := by
  simp only [liveRowResult, processRow, rowPastFuture]
  split_ifs <;> rfl

set_option maxHeartbeats 1600000 in
theorem liveRowResult_success (env : ImportEnv) (a l v : String) (o : Bool)
    (n : PyDateTime) (r : ParsedRow)
    (hs : ∀ args, pyTruthy (env.collab.get_contact_id_by_email args).1 = true)
    (hb : ∀ args, pyTruthy (env.collab.create_service_booking args).1 = true) :
    (liveRowResult env a l v o n r).success = !(rowEmail r == "") := by
  simp only [liveRowResult, processRow, rowPastFuture, rowEmail]
  split_ifs <;> simp_all

set_option maxHeartbeats 1600000 in
theorem createdDelta_length (env : ImportEnv) (a l v : String) (o : Bool)
    (n : PyDateTime) (r : ParsedRow) :
    (createdDelta env a l v o n r).length
      = if rowEmail r = "" then 0
        else if contactObtained env a l v r then 1 else 0 := by
  simp only [createdDelta, contactObtained, processRow, rowPastFuture, rowEmail]
  split_ifs <;> simp_all

set_option maxHeartbeats 1600000 in
theorem createdDelta_is_past (env : ImportEnv) (a l v : String) (o : Bool)
    (n : PyDateTime) (r : ParsedRow) :
    ∀ x ∈ createdDelta env a l v o n r,
      x.is_past = dtLt (utcIfNaive r.start_dt) n ∧
      x.start_time = utcIfNaive r.start_dt := by
  simp only [createdDelta, processRow, rowPastFuture]
  split_ifs <;> intro x hx <;> simp_all

set_option maxHeartbeats 1600000 in
theorem bookingDelta_fields (env : ImportEnv) (a l v : String) (o : Bool)
    (n : PyDateTime) (r : ParsedRow) :
    ∀ call ∈ bookingDelta env a l v o n r,
      call.timezone = pyTzName r.fields ∧
      call.start_time = utcIfNaive r.start_dt ∧
      call.end_time = utcIfNaive r.end_dt ∧
      call.override_availability = o := by
  simp only [bookingDelta, processRow, rowPastFuture]
  split_ifs <;> intro call hc <;> simp_all

/-!
## Parser observations and lemmas
-/

/-- The validity test of one loop iteration: both timestamps parse. -/
def rowTimesOk (ntoi : List (String × Nat)) (hlen : Nat) (formats : List String)
    (cm : Option (List (String × String))) (row : List String) : Bool :=
  (parse_datetime (dgetD (rawRecordOf ntoi hlen cm row) "start_time" "") (some formats)).isSome &&
    (parse_datetime (dgetD (rawRecordOf ntoi hlen cm row) "end_time" "") (some formats)).isSome

/-- The raw start value a row carries into validation/error reporting. -/
def rowStartRaw (ntoi : List (String × Nat)) (hlen : Nat)
    (cm : Option (List (String × String))) (row : List String) : String :=
  dgetD (rawRecordOf ntoi hlen cm row) "start_time" ""

/-- The raw end value a row carries into validation/error reporting. -/
def rowEndRaw (ntoi : List (String × Nat)) (hlen : Nat)
    (cm : Option (List (String × String))) (row : List String) : String :=
  dgetD (rawRecordOf ntoi hlen cm row) "end_time" ""

theorem mkDateTime_tz (f : StrpFields) (dt : PyDateTime) (h : mkDateTime f = some dt) :
    dt.tzOffsetMinutes = none := by
  simp only [mkDateTime] at h
  split_ifs at h
  injection h with h'
  rw [← h']

theorem strptime_tz (v f : String) (dt : PyDateTime) (h : strptime v f = some dt) :
    dt.tzOffsetMinutes = none := by
  simp only [strptime] at h
  split at h
  · cases h
  · split at h
    · exact mkDateTime_tz _ _ h
    · cases h

theorem firstParse_tz (fmts : List String) : ∀ (v : String) (dt : PyDateTime),
    firstParse v fmts = some dt → dt.tzOffsetMinutes = none := by
  induction fmts with
  | nil => intro v dt h; cases h
  | cons f fs ih =>
    intro v dt h
    simp only [firstParse] at h
    rcases hs : strptime v f with _ | d
    · rw [hs] at h; exact ih v dt h
    · rw [hs] at h
      injection h with h'
      rw [← h']
      exact strptime_tz v f d hs

theorem parse_datetime_tz (value : String) (formats : Option (List String))
    (dt : PyDateTime) (h : parse_datetime value formats = some dt) :
    dt.tzOffsetMinutes = none := by
  simp only [parse_datetime] at h
  split_ifs at h
  all_goals
    first
      | cases h
      | (split at h <;> exact firstParse_tz _ _ _ h)

theorem parseRowsLoop_skip_mem (ntoi : List (String × Nat)) (hlen : Nat)
    (formats : List String) (cm : Option (List (String × String))) :
    ∀ (rows : List (List String)) (n : Nat) (rs : List ParsedRow),
      parseRowsLoop ntoi hlen formats true cm n rows = Except.ok rs →
      ∀ rec ∈ rs, ∃ k, ∃ hk : k < rows.length,
        rec.row_num = n + k ∧
        rowTimesOk ntoi hlen formats cm (rows.get ⟨k, hk⟩) = true := by
  intro rows
  induction rows with
  | nil =>
    intro n rs h rec hrec
    simp only [parseRowsLoop] at h
    injection h with h'
    subst h'
    simp at hrec
  | cons row rest ih =>
    intro n rs h rec hrec
    simp only [parseRowsLoop] at h
    rcases h1 : parse_datetime (dgetD (rawRecordOf ntoi hlen cm row) "start_time" "")
        (some formats) with _ | sdt <;>
      rcases h2 : parse_datetime (dgetD (rawRecordOf ntoi hlen cm row) "end_time" "")
        (some formats) with _ | edt <;>
      rw [h1, h2] at h <;> simp only [if_true] at h
    · obtain ⟨k, hk, hnum, hok⟩ := ih (n + 1) rs h rec hrec
      exact ⟨k + 1, Nat.succ_lt_succ hk, by omega, by simpa using hok⟩
    · obtain ⟨k, hk, hnum, hok⟩ := ih (n + 1) rs h rec hrec
      exact ⟨k + 1, Nat.succ_lt_succ hk, by omega, by simpa using hok⟩
    · obtain ⟨k, hk, hnum, hok⟩ := ih (n + 1) rs h rec hrec
      exact ⟨k + 1, Nat.succ_lt_succ hk, by omega, by simpa using hok⟩
    · rcases hr : parseRowsLoop ntoi hlen formats true cm (n + 1) rest with e | rs'
      · rw [hr] at h; simp [Except.map] at h
      · rw [hr] at h
        simp only [Except.map] at h
        injection h with h'
        subst h'
        rcases List.mem_cons.mp hrec with hrec1 | hrec2
        · refine ⟨0, Nat.succ_pos _, by simp [hrec1], ?_⟩
          simp [rowTimesOk, h1, h2]
        · obtain ⟨k, hk, hnum, hok⟩ := ih (n + 1) rs' hr rec hrec2
          exact ⟨k + 1, Nat.succ_lt_succ hk, by omega, by simpa using hok⟩

theorem parseRowsLoop_tz (ntoi : List (String × Nat)) (hlen : Nat)
    (formats : List String) (skip : Bool) (cm : Option (List (String × String))) :
    ∀ (rows : List (List String)) (n : Nat) (rs : List ParsedRow),
      parseRowsLoop ntoi hlen formats skip cm n rows = Except.ok rs →
      ∀ rec ∈ rs, rec.start_dt.tzOffsetMinutes = none ∧
        rec.end_dt.tzOffsetMinutes = none := by
  intro rows
  induction rows with
  | nil =>
    intro n rs h rec hrec
    simp only [parseRowsLoop] at h
    injection h with h'
    subst h'
    simp at hrec
  | cons row rest ih =>
    intro n rs h rec hrec
    simp only [parseRowsLoop] at h
    rcases h1 : parse_datetime (dgetD (rawRecordOf ntoi hlen cm row) "start_time" "")
        (some formats) with _ | sdt <;>
      rcases h2 : parse_datetime (dgetD (rawRecordOf ntoi hlen cm row) "end_time" "")
        (some formats) with _ | edt <;>
      rw [h1, h2] at h
    · rcases skip with _ | _
      · simp only [Bool.false_eq_true, if_false] at h; cases h
      · simp only [if_true] at h; exact ih (n + 1) rs h rec hrec
    · rcases skip with _ | _
      · simp only [Bool.false_eq_true, if_false] at h; cases h
      · simp only [if_true] at h; exact ih (n + 1) rs h rec hrec
    · rcases skip with _ | _
      · simp only [Bool.false_eq_true, if_false] at h; cases h
      · simp only [if_true] at h; exact ih (n + 1) rs h rec hrec
    · rcases hr : parseRowsLoop ntoi hlen formats skip cm (n + 1) rest with e | rs'
      · rw [hr] at h; simp [Except.map] at h
      · rw [hr] at h
        simp only [Except.map] at h
        injection h with h'
        subst h'
        rcases List.mem_cons.mp hrec with hrec1 | hrec2
        · subst hrec1
          exact ⟨parse_datetime_tz _ _ _ h1, parse_datetime_tz _ _ _ h2⟩
        · exact ih (n + 1) rs' hr rec hrec2

theorem parseRowsLoop_strict_first (ntoi : List (String × Nat)) (hlen : Nat)
    (formats : List String) (cm : Option (List (String × String))) :
    ∀ (rows : List (List String)) (n i : Nat) (hi : i < rows.length),
      rowTimesOk ntoi hlen formats cm (rows.get ⟨i, hi⟩) = false →
      (∀ j (hj : j < i), rowTimesOk ntoi hlen formats cm
        (rows.get ⟨j, Nat.lt_trans hj hi⟩) = true) →
      parseRowsLoop ntoi hlen formats false cm n rows =
        Except.error ⟨n + i, rowStartRaw ntoi hlen cm (rows.get ⟨i, hi⟩),
          rowEndRaw ntoi hlen cm (rows.get ⟨i, hi⟩)⟩ := by
  intro rows
  induction rows with
  | nil => intro n i hi; exact absurd hi (by simp)
  | cons row rest ih =>
    intro n i hi hbad hprev
    rcases i with _ | j
    · simp only [parseRowsLoop]
      rcases h1 : parse_datetime (dgetD (rawRecordOf ntoi hlen cm row) "start_time" "")
          (some formats) with _ | sdt <;>
        rcases h2 : parse_datetime (dgetD (rawRecordOf ntoi hlen cm row) "end_time" "")
          (some formats) with _ | edt
      · rfl
      · rfl
      · rfl
      · exact absurd (show rowTimesOk ntoi hlen formats cm row = false from hbad)
          (by simp [rowTimesOk, h1, h2])
    · have hrest : j < rest.length := Nat.lt_of_succ_lt_succ hi
      have hok0 : rowTimesOk ntoi hlen formats cm row = true :=
        show rowTimesOk ntoi hlen formats cm ((row :: rest).get ⟨0, Nat.succ_pos _⟩) = true from
          hprev 0 (Nat.succ_pos j)
      rw [rowTimesOk, Bool.and_eq_true, Option.isSome_iff_exists,
        Option.isSome_iff_exists] at hok0
      obtain ⟨⟨sdt, h1⟩, ⟨edt, h2⟩⟩ := hok0
      simp only [parseRowsLoop]
      rw [h1, h2]
      have hprev' : ∀ j' (hj' : j' < j), rowTimesOk ntoi hlen formats cm
          (rest.get ⟨j', Nat.lt_trans hj' hrest⟩) = true := by
        intro j' hj'
        exact hprev (j' + 1) (Nat.succ_lt_succ hj')
      have hbad' : rowTimesOk ntoi hlen formats cm (rest.get ⟨j, hrest⟩) = false := hbad
      rw [ih (n + 1) j hrest hbad' hprev']
      have hn : n + 1 + j = n + (j + 1) := by omega
      simp [Except.map, hn]

/-!
## Resolution policy, spec side
-/

theorem strippedOrNone_eq_none (o : Option String)
    (h : pyTruthy (strippedOrNone o) = false) : strippedOrNone o = none := by
  simp only [strippedOrNone] at h ⊢
  split_ifs at h ⊢ with hc
  · rfl
  · simp [pyTruthy] at h
    exact absurd h hc

/-- The resolution algorithm as the claim words it (spec §4.2, steps 1–5):
inline ids win when both present; otherwise the mapping is looked up, a
missing service id prefers the catalog entry and falls back to the mapping,
a missing staff id and the calendar id come only from the mapping, and the
result stands only if both ids are non-empty. -/
def resolvePolicySpec (db : Catalogs) (location_id service_name : String)
    (inline_service_id inline_staff_id : Option String) :
    Option String × Option String × Option String :=
  let s0 := strippedOrNone inline_service_id
  let t0 := strippedOrNone inline_staff_id
  if pyTruthy s0 ∧ pyTruthy t0 then (s0, t0, none)
  else
    let mapping := db.mappings.find? fun m =>
      m.location_id == location_id && pyLower m.service_name == pyLower service_name
    let catalogEntry := db.services.find? fun c =>
      c.location_id == location_id && pyLower c.name == pyLower service_name
    let s1 :=
      if pyTruthy s0 then s0
      else
        match catalogEntry with
        | some c => some c.service_id
        | none => mapping.map fun m => m.service_id
    let t1 := if pyTruthy t0 then t0 else mapping.map fun m => m.staff_id
    let cal := if pyTruthy t0 then none else mapping.map fun m => m.calendar_id
    if pyTruthy s1 ∧ pyTruthy t1 then (s1, t1, cal) else (none, none, none)

theorem resolve_eq_spec (db : Catalogs) (location_id service_name : String)
    (csv_service_id csv_staff_id : Option String) :
    resolve_service_and_staff db location_id service_name csv_service_id csv_staff_id
      = resolvePolicySpec db location_id service_name csv_service_id csv_staff_id := by
  simp only [resolve_service_and_staff, resolvePolicySpec]
  by_cases hboth : pyTruthy (strippedOrNone csv_service_id) = true ∧
      pyTruthy (strippedOrNone csv_staff_id) = true
  · rw [if_pos hboth, if_pos hboth]
  · rw [if_neg hboth, if_neg hboth]
    rcases hm : db.mappings.find? fun m =>
      m.location_id == location_id && pyLower m.service_name == pyLower service_name
      with _ | mp <;>
    rcases hc : db.services.find? fun c =>
      c.location_id == location_id && pyLower c.name == pyLower service_name
      with _ | ce <;>
    simp only [hm, hc] <;>
    by_cases hS : pyTruthy (strippedOrNone csv_service_id) = true <;>
    by_cases hT : pyTruthy (strippedOrNone csv_staff_id) = true <;>
    simp_all [pyTruthy, strippedOrNone_eq_none]

theorem formatsFor_preset (name : String) (entry : String × List String)
    (h : DATE_FORMAT_PRESETS.find? (fun p => p.1 = name) = some entry) :
    formatsFor (some name) = entry.2 := by
  have hmem : entry ∈ DATE_FORMAT_PRESETS := List.mem_of_find?_eq_some h
  have hname : entry.1 = name := by
    have hp := List.find?_some h
    simpa using hp
  subst hname
  fin_cases hmem <;> rfl

theorem previewRow_row (db : Catalogs) (l : String) (r : ParsedRow) :
    (previewRow db l r).row = r.row_num := by
  simp only [previewRow]
  split_ifs <;> rfl

theorem previewRow_success_email (db : Catalogs) (l : String) (r : ParsedRow)
    (h : (previewRow db l r).success = true) : rowEmail r ≠ "" := by
  simp only [previewRow] at h
  simp only [rowEmail]
  split_ifs at h with h1 h2
  exact h1

theorem created_count (env : ImportEnv) (a l v : String) (o : Bool) (n : PyDateTime) :
    ∀ rows : List ParsedRow,
      ((rows.map (createdDelta env a l v o n)).flatten).length
        = (rows.filter fun r => !(rowEmail r == "") && contactObtained env a l v r).length := by
  intro rows
  induction rows with
  | nil => rfl
  | cons r rs ih =>
    simp only [List.map_cons, List.flatten_cons, List.length_append, List.filter_cons, ih]
    by_cases h1 : rowEmail r = ""
    · simp [createdDelta_length, h1]
    · by_cases h2 : contactObtained env a l v r = true
      · simp [createdDelta_length, h1, h2]
        omega
      · simp [createdDelta_length, h1, h2]

/-- The `row_results` list of either shape of `run_import` result. -/
def outRowResults : ImportOutcome → List RowResult
  | ImportOutcome.preview p => p.row_results
  | ImportOutcome.run s => s.row_results

/-!
## Concrete fixtures used by counterexamples and witnesses
-/

def cxHeader : List String :=
  ["id", "name", "email", "phone", "service_name", "staff_name", "staff_id",
   "start_time", "end_time", "timezone", "status"]

def cxRowPast : List String :=
  ["1", "Alice", "a@x.com", "123", "Cut", "Bob", "",
   "01/02/2020 10:00:00", "01/02/2020 11:00:00", "UTC", "ok"]

def cxRowFuture : List String :=
  ["1", "Alice", "a@x.com", "123", "Cut", "Bob", "",
   "01/02/2030 10:00:00", "01/02/2030 11:00:00", "UTC", "ok"]

def cxNow : PyDateTime :=
  { year := 2025, month := 1, day := 1, hour := 0, minute := 0, second := 0,
    tzOffsetMinutes := some 0 }

def cxDb : Catalogs := { mappings := [], services := [] }

def cxDbMapped : Catalogs :=
  { mappings := [{ location_id := "L1", service_name := "Cut", service_id := "S9",
                   staff_id := "T9", calendar_id := "C9" }],
    services := [] }

def cxCollabOk : Collaborators :=
  { get_contact_id_by_email := fun _ => (some "c1", none),
    create_contact := fun _ => (some "c2", none),
    create_service_booking := fun _ => (some "b1", none) }

def cxCollabNoContact : Collaborators :=
  { get_contact_id_by_email := fun _ => (none, none),
    create_contact := fun _ => (none, some "api down"),
    create_service_booking := fun _ => (some "b1", none) }

def cxCollabConflict : Collaborators :=
  { get_contact_id_by_email := fun _ => (some "c1", none),
    create_contact := fun _ => (some "c2", none),
    create_service_booking := fun _ => (none, some "Conflict: slot already booked") }

def cxCreds : List GHLAuthCredentials := [{ location_id := "L1", access_token := "tok" }]

def cxEnvOk : ImportEnv :=
  { credentials := cxCreds, db := cxDb, collab := cxCollabOk, now := cxNow }

def cxEnvNoContact : ImportEnv :=
  { credentials := cxCreds, db := cxDb, collab := cxCollabNoContact, now := cxNow }

def cxEnvConflict : ImportEnv :=
  { credentials := cxCreds, db := cxDbMapped, collab := cxCollabConflict, now := cxNow }

deriving instance DecidableEq for Except

def cxDefaultAppointment : ImportedAppointment :=
  { name := "", email := "", phone := "", service_name := "", start_time := cxNow,
    end_time := cxNow, is_past := false, ghl_booking_id := none }

/-- The field dict the parser builds for `cxRowFuture` under `cxHeader`. -/
def cxFutureFields : List (String × String) :=
  [("id", "1"), ("name", "Alice"), ("email", "a@x.com"), ("phone", "123"),
   ("service_name", "Cut"), ("staff_name", "Bob"), ("staff_id", ""),
   ("start_time", "01/02/2030 10:00:00"), ("end_time", "01/02/2030 11:00:00"),
   ("timezone", "UTC"), ("status", "ok")]

def cxFutureStart : PyDateTime :=
  { year := 2030, month := 1, day := 2, hour := 10, minute := 0, second := 0,
    tzOffsetMinutes := none }

def cxFutureEnd : PyDateTime :=
  { year := 2030, month := 1, day := 2, hour := 11, minute := 0, second := 0,
    tzOffsetMinutes := none }

/-- The record yielded by the parser for `cxRowFuture` under `cxHeader`. -/
def cxParsedFuture : List ParsedRow :=
  [{ fields := cxFutureFields, start_dt := cxFutureStart, end_dt := cxFutureEnd, row_num := 2 }]

/-!
## Claim theorems
-/

/-- C3: with both inline ids non-empty after trimming, resolution returns them
directly with no calendar id and without consulting either catalog (shown both
by the equivalence with the step-by-step policy and by the concrete scenario
against a conflicting mapping); otherwise a missing service id prefers the
catalog over the mapping, staff and calendar ids come only from the mapping,
and resolution succeeds exactly when both ids end up non-empty, else the
unresolved signal `(none, none, none)` is returned. -/
theorem C3_resolution_policy :
    (∀ (db : Catalogs) (location_id service_name : String)
        (csv_service_id csv_staff_id : Option String),
      resolve_service_and_staff db location_id service_name csv_service_id csv_staff_id
        = resolvePolicySpec db location_id service_name csv_service_id csv_staff_id) ∧
    (∀ (db : Catalogs) (location_id service_name : String)
        (csv_service_id csv_staff_id : Option String),
      resolve_service_and_staff db location_id service_name csv_service_id csv_staff_id
          = (none, none, none) ∨
        (pyTruthy (resolve_service_and_staff db location_id service_name csv_service_id
            csv_staff_id).1 = true ∧
          pyTruthy (resolve_service_and_staff db location_id service_name csv_service_id
            csv_staff_id).2.1 = true)) ∧
    resolve_service_and_staff cxDbMapped "L1" "Cut" (some "S1") (some "T1")
      = (some "S1", some "T1", none) := by
  refine ⟨resolve_eq_spec, ?_, by decide⟩
  intro db location_id service_name csv_service_id csv_staff_id
  rw [resolve_eq_spec]
  simp only [resolvePolicySpec]
  by_cases hboth : pyTruthy (strippedOrNone csv_service_id) = true ∧
      pyTruthy (strippedOrNone csv_staff_id) = true
  · rw [if_pos hboth]
    exact Or.inr ⟨hboth.1, hboth.2⟩
  · rw [if_neg hboth]
    split_ifs <;> first | exact Or.inl rfl | exact Or.inr (by assumption)

/-- C5: a recognized date-format preset restricts parsing to exactly that
preset's format list; concretely, under the `"MM/DD/YYYY"` preset the start
value `"13/01/2025 10:00:00"` fails to parse (13 is not a month) so the row
is dropped in skip mode, while the same file under the default format list
yields the row. -/
theorem C5_preset_restriction :
    (∀ (name : String) (entry : String × List String),
      DATE_FORMAT_PRESETS.find? (fun p => p.1 = name) = some entry →
      formatsFor (some name) = entry.2) ∧
    parse_csv_rows [["id", "email", "start_time", "end_time"],
        ["1", "a@x.com", "13/01/2025 10:00:00", "01/13/2025 11:00:00"]] true
        (some "MM/DD/YYYY") none = Except.ok [] ∧
    ((parse_csv_rows [["id", "email", "start_time", "end_time"],
        ["1", "a@x.com", "13/01/2025 10:00:00", "01/13/2025 11:00:00"]] true
        none none).toOption.getD []).length = 1 := by
  exact ⟨formatsFor_preset, by decide, by decide⟩

/-- Witness for C5 at the `"MM/DD/YYYY"` preset. -/
theorem C5_preset_restriction_witness :
    formatsFor (some "MM/DD/YYYY")
      = ["%m/%d/%Y %H:%M:%S", "%m/%d/%Y %I:%M:%S %p", "%m/%d/%Y %H:%M", "%m/%d/%Y"] :=
  C5_preset_restriction.1 "MM/DD/YYYY"
    ("MM/DD/YYYY", ["%m/%d/%Y %H:%M:%S", "%m/%d/%Y %I:%M:%S %p", "%m/%d/%Y %H:%M", "%m/%d/%Y"])
    (by decide)

/-- C6: with no credential record for the location, `run_import` returns the
structured no-credentials failure — `success = false`, the fixed error text,
all counts zero, no row results — and the run state is empty: nothing
persisted and no collaborator call made. -/
theorem C6_no_credentials :
    ∀ (env : ImportEnv) (fileRows : List (List String)) (location_id version : String)
      (dry_run override_availability : Bool) (df : Option String)
      (cm : Option (List (String × String))),
      env.credentials.find? (fun c => c.location_id == location_id) = none →
      run_import env fileRows location_id version dry_run override_availability df cm
          = (ImportOutcome.run noCredentialsFailure, {}) ∧
      noCredentialsFailure.success = false ∧
      noCredentialsFailure.error = some "No OAuth credentials found for this location_id." ∧
      noCredentialsFailure.imported = 0 ∧
      noCredentialsFailure.past_count = 0 ∧
      noCredentialsFailure.future_count = 0 ∧
      noCredentialsFailure.created_bookings = 0 ∧
      noCredentialsFailure.row_results = [] ∧
      ({} : RowState).created = [] ∧
      ({} : RowState).contactSearchCalls = [] ∧
      ({} : RowState).bookingCalls = [] := by
  intro env fileRows location_id version dry_run override_availability df cm h
  refine ⟨?_, rfl, rfl, rfl, rfl, rfl, rfl, rfl, rfl, rfl, rfl⟩
  simp [run_import, h]

/-- Witness for C6: a location with no stored credentials. -/
theorem C6_no_credentials_witness :
    run_import cxEnvOk [cxHeader, cxRowPast] "L2" "" false true none none
      = (ImportOutcome.run noCredentialsFailure, {}) :=
  (C6_no_credentials cxEnvOk [cxHeader, cxRowPast] "L2" "" false true none none (by decide)).1

/-- C9: a dry run checks credentials first: with no credential record it
returns the very same no-credentials failure as a live run, and with a
credential record it returns exactly the preview result with an empty run
state (no collaborator calls, nothing persisted). -/
theorem C9_dry_run_credentials :
    ∀ (env : ImportEnv) (fileRows : List (List String)) (location_id version : String)
      (override_availability : Bool) (df : Option String)
      (cm : Option (List (String × String))),
      (env.credentials.find? (fun c => c.location_id == location_id) = none →
        run_import env fileRows location_id version true override_availability df cm
            = (ImportOutcome.run noCredentialsFailure, {}) ∧
        run_import env fileRows location_id version false override_availability df cm
            = (ImportOutcome.run noCredentialsFailure, {})) ∧
      (∀ cr, env.credentials.find? (fun c => c.location_id == location_id) = some cr →
        run_import env fileRows location_id version true override_availability df cm
            = (ImportOutcome.preview (run_preview env.db fileRows location_id df cm), {})) := by
  intro env fileRows location_id version override_availability df cm
  constructor
  · intro h
    exact ⟨by simp [run_import, h], by simp [run_import, h]⟩
  · intro cr h
    simp [run_import, h]

/-- Witness for C9: dry run with credentials present returns the preview. -/
theorem C9_dry_run_credentials_witness :
    run_import cxEnvOk [cxHeader, cxRowPast] "L1" "" true true none none
      = (ImportOutcome.preview (run_preview cxEnvOk.db [cxHeader, cxRowPast] "L1" none none),
         {}) :=
  (C9_dry_run_credentials cxEnvOk [cxHeader, cxRowPast] "L1" "" true none none).2
    { location_id := "L1", access_token := "tok" } (by decide)

/-- C7: the booking-error classifier maps a non-empty raw error by
case-insensitive substring matching, first match winning, to the
slot-no-longer-available message, the slot-taken message, the
generic-unavailable message, or the first-sentence/first-120-characters
pass-through; and in the concrete conflict scenario with
`override_availability = false` the row result is `success = false` with the
slot-taken message while the `ImportedAppointment` is still persisted with a
null booking id. -/
theorem C7_error_classifier :
    (∀ raw : String, raw ≠ "" →
      ((strContains (pyLower raw) "slot is no longer available" ||
          strContains (pyLower raw) "no longer available") = true →
        friendly_booking_error (some raw) = msgSlotNoLongerAvailable) ∧
      ((strContains (pyLower raw) "slot is no longer available" ||
          strContains (pyLower raw) "no longer available") = false →
        (strContains (pyLower raw) "conflict" ||
          strContains (pyLower raw) "already booked") = true →
        friendly_booking_error (some raw) = msgSlotTaken) ∧
      ((strContains (pyLower raw) "slot is no longer available" ||
          strContains (pyLower raw) "no longer available") = false →
        (strContains (pyLower raw) "conflict" ||
          strContains (pyLower raw) "already booked") = false →
        ((strContains (pyLower raw) "internal server error" ||
            strContains (pyLower raw) "500") &&
          (strContains (pyLower raw) "slot" ||
            strContains (pyLower raw) "available")) = true →
        friendly_booking_error (some raw) = msgSlotNotAvailable) ∧
      ((strContains (pyLower raw) "slot is no longer available" ||
          strContains (pyLower raw) "no longer available") = false →
        (strContains (pyLower raw) "conflict" ||
          strContains (pyLower raw) "already booked") = false →
        ((strContains (pyLower raw) "internal server error" ||
            strContains (pyLower raw) "500") &&
          (strContains (pyLower raw) "slot" ||
            strContains (pyLower raw) "available")) = false →
        friendly_booking_error (some raw) = fallbackBookingMessage raw)) ∧
    ((outRowResults (run_import cxEnvConflict [cxHeader, cxRowFuture] "L1" "" false false none
        none).1).map fun rr => (rr.success, rr.error)) = [(false, some msgSlotTaken)] ∧
    ((run_import cxEnvConflict [cxHeader, cxRowFuture] "L1" "" false false none
        none).2.created.map fun ap => ap.ghl_booking_id) = [none] := by
  refine ⟨?_, by decide, by decide⟩
  intro raw hraw
  refine ⟨?_, ?_, ?_, ?_⟩
  · intro h1
    simp [friendly_booking_error, hraw, h1]
  · intro h1 h2
    simp [friendly_booking_error, hraw, h1, h2]
  · intro h1 h2 h3
    simp [friendly_booking_error, hraw, h1, h2, h3]
  · intro h1 h2 h3
    simp [friendly_booking_error, hraw, h1, h2, h3]

/-- Witness for C7: a conflict error string classifies to the slot-taken
message. -/
theorem C7_error_classifier_witness :
    friendly_booking_error (some "Conflict: slot already booked") = msgSlotTaken :=
  (C7_error_classifier.1 "Conflict: slot already booked" (by decide)).2.1 (by decide) (by decide)

/-- C4: a data row whose start or end timestamp fails to parse is, in
skip-invalid mode, absent from the yielded sequence (no yielded record
carries its source line number), while in strict mode the parse aborts at
the first invalid row with an error identifying its 1-based source line
number (header is line 1, first data row line 2) and the offending raw
start/end values. -/
theorem C4_invalid_row_modes :
    ∀ (header : List String) (dataRows : List (List String)) (df : Option String)
      (cm : Option (List (String × String))),
      header ≠ [] →
      (∀ rs, parse_csv_rows (header :: dataRows) true df cm = Except.ok rs →
        ∀ i (hi : i < dataRows.length),
          rowTimesOk (nameToIndex (normalize_headers header)) header.length (formatsFor df) cm
            (dataRows.get ⟨i, hi⟩) = false →
          ∀ rec ∈ rs, rec.row_num ≠ i + 2) ∧
      (∀ i (hi : i < dataRows.length),
        rowTimesOk (nameToIndex (normalize_headers header)) header.length (formatsFor df) cm
          (dataRows.get ⟨i, hi⟩) = false →
        (∀ j (hj : j < i), rowTimesOk (nameToIndex (normalize_headers header)) header.length
          (formatsFor df) cm (dataRows.get ⟨j, Nat.lt_trans hj hi⟩) = true) →
        parse_csv_rows (header :: dataRows) false df cm =
          Except.error ⟨i + 2,
            rowStartRaw (nameToIndex (normalize_headers header)) header.length cm
              (dataRows.get ⟨i, hi⟩),
            rowEndRaw (nameToIndex (normalize_headers header)) header.length cm
              (dataRows.get ⟨i, hi⟩)⟩) := by
  intro header dataRows df cm hheader
  have hne : header.isEmpty = false := by
    cases header
    · exact absurd rfl hheader
    · rfl
  constructor
  · intro rs hok i hi hbad rec hrec hnum
    have hloop : parseRowsLoop (nameToIndex (normalize_headers header)) header.length
        (formatsFor df) true cm 2 dataRows = Except.ok rs := by
      simpa [parse_csv_rows, hne] using hok
    obtain ⟨k, hk, hknum, hkok⟩ :=
      parseRowsLoop_skip_mem _ _ _ _ dataRows 2 rs hloop rec hrec
    have hki : k = i := by omega
    subst hki
    have hbad' : rowTimesOk (nameToIndex (normalize_headers header)) header.length
        (formatsFor df) cm (dataRows.get ⟨k, hk⟩) = false := hbad
    exact Bool.noConfusion (hbad'.symm.trans hkok)
  · intro i hi hbad hprev
    have hstrict := parseRowsLoop_strict_first (nameToIndex (normalize_headers header))
      header.length (formatsFor df) cm dataRows 2 i hi hbad hprev
    have hn : 2 + i = i + 2 := by omega
    rw [hn] at hstrict
    simpa [parse_csv_rows, hne] using hstrict

/-- Witness for C4: strict mode aborts on the sole (invalid) data row with
its line number and raw values. -/
theorem C4_invalid_row_modes_witness :
    parse_csv_rows [["start_time", "end_time"], ["bad", "x"]] false none none
      = Except.error ⟨2, "bad", "x"⟩ := by
  have h := (C4_invalid_row_modes ["start_time", "end_time"] [["bad", "x"]] none none
    (by decide)).2 0 (by decide) (by decide) (fun j hj => absurd hj (Nat.not_lt_zero j))
  exact h.trans (by decide)

theorem run_import_created_is_past (env : ImportEnv) (fileRows : List (List String))
    (location_id version : String) (dry_run override_availability : Bool)
    (df : Option String) (cm : Option (List (String × String))) :
    ∀ ap ∈ (run_import env fileRows location_id version dry_run override_availability
        df cm).2.created,
      ap.is_past = dtLt ap.start_time (utcIfNaive env.now) := by
  intro ap hap
  simp only [run_import] at hap
  rcases hcr : env.credentials.find? (fun c => c.location_id == location_id) with _ | cr
  · rw [hcr] at hap
    simp at hap
  · rw [hcr] at hap
    rcases dry_run
    · simp only [Bool.false_eq_true, if_false] at hap
      rw [foldl_created] at hap
      simp only [List.nil_append] at hap
      rw [List.mem_flatten] at hap
      obtain ⟨l, hl, hapl⟩ := hap
      rw [List.mem_map] at hl
      obtain ⟨r, _, rfl⟩ := hl
      obtain ⟨h1, h2⟩ := createdDelta_is_past env cr.access_token location_id version
        override_availability (utcIfNaive env.now) r ap hapl
      rw [h1, h2]
    · simp at hap

/-- C8: within one `run_import` call the past/future classification of every
persisted row is decided against the single run-start "now": an appointment
is marked past exactly when its (UTC-normalized) start instant is strictly
earlier than that now, and any two appointments of the same run with equal
start instants receive the same `is_past` value. -/
theorem C8_single_now :
    ∀ (env : ImportEnv) (fileRows : List (List String)) (location_id version : String)
      (dry_run override_availability : Bool) (df : Option String)
      (cm : Option (List (String × String))),
      (∀ ap ∈ (run_import env fileRows location_id version dry_run override_availability
          df cm).2.created,
        (ap.is_past = true ↔ instantSec ap.start_time < instantSec (utcIfNaive env.now))) ∧
      (∀ ap ∈ (run_import env fileRows location_id version dry_run override_availability
          df cm).2.created,
        ∀ bp ∈ (run_import env fileRows location_id version dry_run override_availability
          df cm).2.created,
        instantSec ap.start_time = instantSec bp.start_time → ap.is_past = bp.is_past) := by
  intro env fileRows location_id version dry_run override_availability df cm
  constructor
  · intro ap hap
    rw [run_import_created_is_past env fileRows location_id version dry_run
      override_availability df cm ap hap]
    simp [dtLt]
  · intro ap hap bp hbp heq
    rw [run_import_created_is_past env fileRows location_id version dry_run
      override_availability df cm ap hap,
      run_import_created_is_past env fileRows location_id version dry_run
      override_availability df cm bp hbp]
    simp [dtLt, heq]

/-- Witness for C8: the past-dated concrete row is persisted with
`is_past = true`, via the theorem at its created appointment. -/
theorem C8_single_now_witness :
    ((run_import cxEnvOk [cxHeader, cxRowPast] "L1" "" false true none
        none).2.created.headD cxDefaultAppointment).is_past = true := by
  have h := (C8_single_now cxEnvOk [cxHeader, cxRowPast] "L1" "" false true none none).1
    ((run_import cxEnvOk [cxHeader, cxRowPast] "L1" "" false true none
      none).2.created.headD cxDefaultAppointment) (by decide)
  exact h.mpr (by decide)

/-- C10: the parser only ever yields timezone-naive timestamps; `run_import`
interprets a naive timestamp as UTC before comparing the start to the run's
"now" — the persisted `is_past` is a function of the UTC-normalized parsed
start and "now" alone, never of the row's timezone column — and the timezone
column is only forwarded to the booking call, whose start/end are the
UTC-normalized parsed timestamps. -/
theorem C10_naive_utc_classification :
    (∀ (fileRows : List (List String)) (skip : Bool) (df : Option String)
        (cm : Option (List (String × String))) (rs : List ParsedRow),
      parse_csv_rows fileRows skip df cm = Except.ok rs →
      ∀ rec ∈ rs, rec.start_dt.tzOffsetMinutes = none ∧
        rec.end_dt.tzOffsetMinutes = none) ∧
    (∀ (env : ImportEnv) (a l v : String) (o : Bool) (n : PyDateTime) (st : RowState)
        (r : ParsedRow),
      (∀ ap ∈ (processRow env a l v o n st r).created,
        ap ∈ st.created ∨
          (ap.is_past = dtLt (utcIfNaive r.start_dt) n ∧
            ap.start_time = utcIfNaive r.start_dt)) ∧
      (∀ call ∈ (processRow env a l v o n st r).bookingCalls,
        call ∈ st.bookingCalls ∨
          (call.timezone = pyTzName r.fields ∧
            call.start_time = utcIfNaive r.start_dt ∧
            call.end_time = utcIfNaive r.end_dt))) := by
  constructor
  · intro fileRows skip df cm rs hok rec hrec
    rcases fileRows with _ | ⟨header, dataRows⟩
    · simp only [parse_csv_rows] at hok
      injection hok with h'
      subst h'
      simp at hrec
    · simp only [parse_csv_rows] at hok
      rcases hh : header.isEmpty
      · rw [hh] at hok
        simp only [Bool.false_eq_true, if_false] at hok
        exact parseRowsLoop_tz _ _ _ _ _ dataRows 2 rs hok rec hrec
      · rw [hh] at hok
        simp only [if_true] at hok
        injection hok with h'
        subst h'
        simp at hrec
  · intro env a l v o n st r
    constructor
    · intro ap hap
      rw [processRow_created] at hap
      rcases List.mem_append.mp hap with hin | hdelta
      · exact Or.inl hin
      · exact Or.inr (createdDelta_is_past env a l v o n r ap hdelta)
    · intro call hcall
      rw [processRow_bookingCalls] at hcall
      rcases List.mem_append.mp hcall with hin | hdelta
      · exact Or.inl hin
      · obtain ⟨h1, h2, h3, _⟩ := bookingDelta_fields env a l v o n r call hdelta
        exact Or.inr ⟨h1, h2, h3⟩

/-- Witness for C10: the booked concrete future row's call carries the row's
timezone column and the UTC-normalized start. -/
theorem C10_naive_utc_classification_witness :
    ((processRow cxEnvConflict "tok" "L1" "" false (utcIfNaive cxNow) {}
        (cxParsedFuture.headD ⟨[], cxNow, cxNow, 0⟩)).bookingCalls.headD
          ⟨"", "", "", "", "", cxNow, cxNow, "", none, none, false⟩).timezone
      = pyTzName (cxParsedFuture.headD ⟨[], cxNow, cxNow, 0⟩).fields := by
  have h := ((C10_naive_utc_classification.2 cxEnvConflict "tok" "L1" "" false
    (utcIfNaive cxNow) {} (cxParsedFuture.headD ⟨[], cxNow, cxNow, 0⟩)).2
    ((processRow cxEnvConflict "tok" "L1" "" false (utcIfNaive cxNow) {}
        (cxParsedFuture.headD ⟨[], cxNow, cxNow, 0⟩)).bookingCalls.headD
          ⟨"", "", "", "", "", cxNow, cxNow, "", none, none, false⟩) (by decide))
  rcases h with hin | hconj
  · exact absurd hin (by decide)
  · exact hconj.1

/-- C1 counterexample: with empty catalogs and every collaborator call
succeeding, the dry run counts the single past-dated unresolvable-service row
as would-fail, yet the live run records it with `success = true` — the
stated dry-run/live per-row agreement does not hold. -/
theorem C1_counterexample :
    ((run_preview cxDb [cxHeader, cxRowPast] "L1" none none).row_results.map
        fun rr => rr.success) = [false] ∧
    (run_preview cxDb [cxHeader, cxRowPast] "L1" none none).would_fail = 1 ∧
    ((outRowResults (run_import cxEnvOk [cxHeader, cxRowPast] "L1" "" false true none
        none).1).map fun rr => rr.success) = [true] := by
  refine ⟨by decide, by decide, by decide⟩

/-- C1 (amended): with fixed catalogs and all collaborator calls succeeding,
preview and live run see the same rows in the same order; every row the
dry run counts would-succeed is recorded `success = true` by the live run;
but the converse fails — the live run records `success = false` exactly for
rows with a blank email, so rows that would-fail only for service/staff
resolution are still recorded `success = true` live. -/
theorem C1_dry_live_agreement :
    ∀ (env : ImportEnv) (fileRows : List (List String)) (location_id version : String)
      (override_availability : Bool) (df : Option String)
      (cm : Option (List (String × String))) (cr : GHLAuthCredentials)
      (rows : List ParsedRow),
      env.credentials.find? (fun c => c.location_id == location_id) = some cr →
      (∀ args, pyTruthy (env.collab.get_contact_id_by_email args).1 = true) →
      (∀ args, pyTruthy (env.collab.create_service_booking args).1 = true) →
      parse_csv_rows fileRows true df cm = Except.ok rows →
      (run_preview env.db fileRows location_id df cm).row_results
          = rows.map (previewRow env.db location_id) ∧
      (∃ s final,
        run_import env fileRows location_id version false override_availability df cm
            = (ImportOutcome.run s, final) ∧
        s.row_results = rows.map (liveRowResult env cr.access_token location_id version
          override_availability (utcIfNaive env.now))) ∧
      (∀ r ∈ rows,
        (previewRow env.db location_id r).row
            = (liveRowResult env cr.access_token location_id version override_availability
                (utcIfNaive env.now) r).row ∧
        ((previewRow env.db location_id r).success = true →
          (liveRowResult env cr.access_token location_id version override_availability
            (utcIfNaive env.now) r).success = true) ∧
        ((liveRowResult env cr.access_token location_id version override_availability
            (utcIfNaive env.now) r).success = false ↔ rowEmail r = "")) := by
  intro env fileRows location_id version override_availability df cm cr rows hcr hs hb hparse
  refine ⟨by simp [run_preview, hparse], ?_, ?_⟩
  · simp only [run_import, hcr, hparse]
    refine ⟨_, _, rfl, ?_⟩
    rw [foldl_row_results]
    simp
  · intro r hr
    refine ⟨?_, ?_, ?_⟩
    · rw [previewRow_row, liveRowResult_row]
    · intro hp
      have hne := previewRow_success_email env.db location_id r hp
      rw [liveRowResult_success env cr.access_token location_id version
        override_availability (utcIfNaive env.now) r hs hb]
      simp [hne]
    · rw [liveRowResult_success env cr.access_token location_id version
        override_availability (utcIfNaive env.now) r hs hb]
      simp

/-- Witness for C1: the amended agreement at the concrete future row. -/
theorem C1_dry_live_agreement_witness :
    (run_preview cxEnvOk.db [cxHeader, cxRowFuture] "L1" none none).row_results
      = cxParsedFuture.map (previewRow cxEnvOk.db "L1") :=
  (C1_dry_live_agreement cxEnvOk [cxHeader, cxRowFuture] "L1" "" true none none
    { location_id := "L1", access_token := "tok" } cxParsedFuture (by decide)
    (fun _ => rfl) (fun _ => rfl) (by decide)).1

/-- C2 counterexample: a yielded row with a non-blank email and parsed
timestamps whose contact reconciliation fails (search and create both return
no id) produces its row-result entry but zero `ImportedAppointment` rows —
contradicting "exactly one ImportedAppointment per yielded row regardless of
contact-reconciliation outcome". -/
theorem C2_counterexample :
    (run_import cxEnvNoContact [cxHeader, cxRowFuture] "L1" "" false true none
        none).2.created = [] ∧
    ((outRowResults (run_import cxEnvNoContact [cxHeader, cxRowFuture] "L1" "" false true none
        none).1).map fun rr => rr.row) = [2] ∧
    rowEmail (cxParsedFuture.headD ⟨[], cxNow, cxNow, 0⟩) = "a@x.com" := by
  refine ⟨by decide, by decide, by decide⟩

/-- C2 (amended): every yielded row contributes exactly one row-result entry,
and exactly one `ImportedAppointment` is persisted per yielded row whose
email is non-blank and whose contact step obtains a contact id; rows with a
blank email or a failed contact reconciliation (and rows dropped by the
parser) persist nothing. -/
theorem C2_row_result_appointment_counts :
    ∀ (env : ImportEnv) (fileRows : List (List String)) (location_id version : String)
      (override_availability : Bool) (df : Option String)
      (cm : Option (List (String × String))) (cr : GHLAuthCredentials)
      (rows : List ParsedRow),
      env.credentials.find? (fun c => c.location_id == location_id) = some cr →
      parse_csv_rows fileRows true df cm = Except.ok rows →
      ∃ s final,
        run_import env fileRows location_id version false override_availability df cm
            = (ImportOutcome.run s, final) ∧
        s.row_results.length = rows.length ∧
        final.created.length
          = (rows.filter fun r => !(rowEmail r == "") &&
              contactObtained env cr.access_token location_id version r).length := by
  intro env fileRows location_id version override_availability df cm cr rows hcr hparse
  simp only [run_import, hcr, hparse]
  refine ⟨_, _, rfl, ?_, ?_⟩
  · rw [foldl_row_results]
    simp
  · rw [foldl_created]
    simp only [List.nil_append]
    exact created_count env cr.access_token location_id version override_availability
      (utcIfNaive env.now) rows

/-- Witness for C2: the concrete failing-contact run persists zero
appointments, matching the filter count. -/
theorem C2_row_result_appointment_counts_witness :
    (run_import cxEnvNoContact [cxHeader, cxRowFuture] "L1" "" false true none
        none).2.created.length = 0 := by
  obtain ⟨s, final, heq, hlen, hcreated⟩ :=
    C2_row_result_appointment_counts cxEnvNoContact [cxHeader, cxRowFuture] "L1" "" true
      none none { location_id := "L1", access_token := "tok" } cxParsedFuture (by decide)
      (by decide)
  have hfin : (run_import cxEnvNoContact [cxHeader, cxRowFuture] "L1" "" false true none
      none).2 = final := by rw [heq]
  rw [hfin, hcreated]
  decide
